import Mathlib

/-!
# ImageDetector: the `App` component of `src/src/App.js`

A shallow embedding of the React component `App`.  The six `useState` cells
and the handlers that update them are translated one by one.  What the
component cannot see for itself (the `<img>` element behind `imageRef`, the
promises of `tf.setBackend`, `mobilenet.load` and `model.classify`) is an
input of the handler or of the event that delivers it.
-/

namespace ImageDetector

/-- One entry of the array `model.classify` resolves to. -/
structure Prediction where
  className : String
  probability : Rat
deriving DecidableEq, Repr

/-- The object `mobilenet.load()` resolves to (always truthy in JS). -/
structure MobileNet where
  handle : Nat
deriving DecidableEq, Repr

/-- An entry of `e.target.files`, named by the string `URL.createObjectURL` returns for it. -/
structure File where
  objectURL : String
deriving DecidableEq, Repr

/-- The two fields of `imageRef.current` that `identify` reads. -/
structure ImageElement where
  complete : Bool
  naturalWidth : Nat
deriving DecidableEq, Repr

/-- The `useState` cells of `App` (lines 7-12). -/
structure State where
  isModelLoading : Bool
  model : Option MobileNet
  imageURL : Option String
  results : List Prediction
  history : List String
  imageError : Bool
deriving DecidableEq, Repr

/-- The component state together with what surrounds it: the text of the URL
input (`textInputRef.current.value`), the arguments of every call of
`model.classify` so far (latest first), the number of those calls whose
promise is still pending, the console lines (latest first) and the errors
that escaped a handler (latest first). -/
structure Sys where
  st : State
  textInput : String
  classifyCalls : List ImageElement
  inFlight : Nat
  console : List String
  uncaught : List String
deriving DecidableEq, Repr

/-- The values of the `useState` initialisers. -/
def State.init : State :=
  { isModelLoading := false, model := none, imageURL := none,
    results := [], history := [], imageError := false }

/-- The component before its first effect has run. -/
def Sys.init : Sys :=
  { st := State.init, textInput := "", classifyCalls := [], inFlight := 0,
    console := [], uncaught := [] }

/-- Lines 35-44: `uploadImage`. -/
def uploadImage (s : State) (files : List File) : State :=
  match files with
  | file :: _ => { s with imageURL := some file.objectURL, imageError := false }
  | [] => { s with imageURL := none }

/-- Lines 65-69: `handleOnChange`. -/
def handleOnChange (s : State) (value : String) : State :=
  { s with imageURL := some value, results := [], imageError := false }

/-- Lines 70-72: `handleOnBlur`. -/
def handleOnBlur (s : State) : State :=
  { s with imageError := false }

/-- Line 125: the `onLoad` handler of the preview image. -/
def imgOnLoad (s : State) : State :=
  { s with imageError := false }

/-- Line 126: the `onError` handler of the preview image. -/
def imgOnError (s : State) : State :=
  { s with imageError := true }

/-- Lines 159-169: the `onClick` of the history entry rendered at `index`;
an index at which nothing is rendered has no handler. -/
def historyClick (s : State) (index : Nat) : State :=
  match s.history.get? index with
  | some image => { s with imageURL := some image }
  | none => s

/-- Lines 82-86: the effect on `[imageURL, history]`. The guard `imageURL &&`
is falsy for `null` and for the empty string. -/
def historyEffect (s : State) : State :=
  match s.imageURL with
  | some url =>
    if url ≠ "" ∧ url ∉ s.history then { s with history := url :: s.history } else s
  | none => s

/-- Lines 46-56 and the call on line 58: `identify` up to its `await`. -/
def identifyStart (w : Sys) (imageRef : Option ImageElement) : Sys :=
  match w.st.model with
  | none => { w with console := "Model is not loaded yet." :: w.console }
  | some _ =>
    match imageRef with
    | none =>
      { w with uncaught := "TypeError: imageRef.current is null" :: w.uncaught }
    | some img =>
      if !img.complete || img.naturalWidth == 0 then
        { w with console := "Image is not loaded correctly." :: w.console,
                 st := { w.st with imageError := true } }
      else
        { w with textInput := "", classifyCalls := img :: w.classifyCalls,
                 inFlight := w.inFlight + 1 }

/-- Lines 58-62: `identify` after its `await`, given how the promise of
`model.classify` settled. Without a pending call there is nothing to resume. -/
def identifyResume (w : Sys) (reply : Except String (List Prediction)) : Sys :=
  match w.inFlight with
  | 0 => w
  | n + 1 =>
    match reply with
    | .ok results => { w with inFlight := n, st := { w.st with results := results } }
    | .error error => { w with inFlight := n, console := error :: w.console }

/-- Lines 18-33: `loadModel`, given how the promises of `tf.setBackend` and
`mobilenet.load` settle. -/
def loadModel (w : Sys) (backend : Except String Bool) (load : Except String MobileNet) : Sys :=
  let w1 : Sys :=
    { w with st := { w.st with isModelLoading := true },
             console := "Setting backend to WebGL..." :: w.console }
  match backend with
  | .error error =>
    { w1 with st := { w1.st with isModelLoading := false },
              console := ("Error loading model: " ++ error) :: w1.console }
  | .ok _ =>
    let w2 : Sys :=
      { w1 with console := "Loading model..." :: "Backend set to WebGL" :: w1.console }
    match load with
    | .error error =>
      { w2 with st := { w2.st with isModelLoading := false },
                console := ("Error loading model: " ++ error) :: w2.console }
    | .ok model =>
      { w2 with st := { w2.st with model := some model, isModelLoading := false },
                console := "Model loaded successfully" :: w2.console }

/-- What can happen to a mounted component. -/
inductive Event where
  | uploadImage (files : List File)
  | handleOnChange (value : String)
  | handleOnBlur
  | historyClick (index : Nat)
  | identify (imageRef : Option ImageElement)
  | classifyResolved (results : List Prediction)
  | classifyRejected (error : String)
  | imgOnLoad
  | imgOnError
deriving DecidableEq, Repr

/-- The handler of an event, before the effects run. -/
def handle (w : Sys) (e : Event) : Sys :=
  match e with
  | .uploadImage files => { w with st := uploadImage w.st files }
  | .handleOnChange value => { w with st := handleOnChange w.st value, textInput := value }
  | .handleOnBlur => { w with st := handleOnBlur w.st }
  | .historyClick index => { w with st := historyClick w.st index }
  | .identify imageRef => identifyStart w imageRef
  | .classifyResolved results => identifyResume w (.ok results)
  | .classifyRejected error => identifyResume w (.error error)
  | .imgOnLoad => { w with st := imgOnLoad w.st }
  | .imgOnError => { w with st := imgOnError w.st }

/-- One event: its handler, then the history effect. -/
def step (w : Sys) (e : Event) : Sys :=
  let w1 := handle w e
  { w1 with st := historyEffect w1.st }

/-- A sequence of events, oldest first. -/
def run (w : Sys) (es : List Event) : Sys :=
  es.foldl step w

/-- The mount: the effect of lines 78-80 runs `loadModel` once, and the
history effect runs on the initial state. While the load is pending the
component renders only the loading header (lines 88-90), so no event reaches
it before the load has settled. -/
def mount (backend : Except String Bool) (load : Except String MobileNet) : Sys :=
  let w := loadModel Sys.init backend load
  { w with st := historyEffect w.st }

/-- Lines 131-146: the rows of the results holder, as
(`className`, `probability`, carries the "Best Guess" badge). -/
def renderResults (results : List Prediction) : List (String × Rat × Bool) :=
  if results.length > 0 then
    results.enum.map (fun p => (p.2.className, p.2.probability, p.1 == 0))
  else []

/-- The label carrying the "Best Guess" badge, if any. -/
def bestGuess (results : List Prediction) : Option String :=
  ((renderResults results).find? (fun row => row.2.2)).map (fun row => row.1)

/-! ## The preview image

`identify` reads `imageRef.current`, the `<img>` of lines 120-127. The element
is not component state: the browser mounts it while `imageURL` is truthy,
starts a fetch when its `src` changes, and ends the fetch with the load event
(line 125) or the error event (line 126).
-/

/-- JS truthiness of `imageURL`, the condition of lines 119 and 149. -/
def shown (imageURL : Option String) : Bool :=
  match imageURL with
  | some url => url != ""
  | none => false

/-- The component together with `imageRef.current`. -/
structure Page where
  sys : Sys
  imageRef : Option ImageElement
deriving DecidableEq, Repr

/-- The element after a render that took `imageURL` from `before` to `after`:
unmounted when `after` is falsy, untouched when `src` is the same, and
otherwise fetching again, incomplete until its load or error event. -/
def reconcile (before : Option String) (imageRef : Option ImageElement)
    (after : Option String) : Option ImageElement :=
  if shown after then
    match imageRef with
    | some img => if before = after then some img else some { img with complete := false }
    | none => some ⟨false, 0⟩
  else none

/-- What the user and the browser can do to the page. -/
inductive Action where
  | uploadImage (files : List File)
  | handleOnChange (value : String)
  | handleOnBlur
  | historyClick (index : Nat)
  | identify
  | classifyResolved (results : List Prediction)
  | classifyRejected (error : String)
  | load (naturalWidth : Nat)
  | error
deriving DecidableEq, Repr

/-- An event of the component followed by the render of the preview image. -/
def Page.render (p : Page) (e : Event) : Page :=
  { sys := step p.sys e,
    imageRef := reconcile p.sys.st.imageURL p.imageRef (step p.sys e).st.imageURL }

/-- One action. The Identify button exists only while `imageURL` is truthy
(line 149) and hands `identify` the mounted element; the load and error events
come from a mounted element, which is then complete, with the decoded width
or with width 0. -/
def Page.act (p : Page) (a : Action) : Page :=
  match a with
  | .uploadImage files => p.render (.uploadImage files)
  | .handleOnChange value => p.render (.handleOnChange value)
  | .handleOnBlur => p.render .handleOnBlur
  | .historyClick index => p.render (.historyClick index)
  | .identify => if shown p.sys.st.imageURL then p.render (.identify p.imageRef) else p
  | .classifyResolved results => p.render (.classifyResolved results)
  | .classifyRejected error => p.render (.classifyRejected error)
  | .load naturalWidth =>
    match p.imageRef with
    | some _ => { sys := step p.sys .imgOnLoad, imageRef := some ⟨true, naturalWidth⟩ }
    | none => p
  | .error =>
    match p.imageRef with
    | some _ => { sys := step p.sys .imgOnError, imageRef := some ⟨true, 0⟩ }
    | none => p

/-- A sequence of actions, oldest first. -/
def Page.run (p : Page) (as : List Action) : Page :=
  as.foldl Page.act p

/-- The mounted page: no image is selected, so no element is mounted. -/
def Page.mount (backend : Except String Bool) (load : Except String MobileNet) : Page :=
  { sys := ImageDetector.mount backend load, imageRef := none }

/-- The element passes the test of line 51. -/
def passesGuard (imageRef : Option ImageElement) : Bool :=
  match imageRef with
  | some img => img.complete && img.naturalWidth != 0
  | none => false

/-- The link between flag and element: while `imageError` is set, the mounted
element does not pass the test of line 51. -/
def Page.Linked (p : Page) : Prop :=
  p.sys.st.imageError = true → passesGuard p.imageRef = false

/-! ## Supporting lemmas -/

theorem historyEffect_results (s : State) : (historyEffect s).results = s.results := by
  unfold historyEffect
  split
  · split <;> rfl
  · rfl

theorem historyEffect_imageError (s : State) : (historyEffect s).imageError = s.imageError := by
  unfold historyEffect
  split
  · split <;> rfl
  · rfl

theorem historyEffect_model (s : State) : (historyEffect s).model = s.model := by
  unfold historyEffect
  split
  · split <;> rfl
  · rfl

theorem historyEffect_isModelLoading (s : State) :
    (historyEffect s).isModelLoading = s.isModelLoading := by
  unfold historyEffect
  split
  · split <;> rfl
  · rfl

theorem historyEffect_imageURL (s : State) : (historyEffect s).imageURL = s.imageURL := by
  unfold historyEffect
  split
  · split <;> rfl
  · rfl

/-- The history effect keeps a duplicate-free history duplicate-free. -/
theorem historyEffect_nodup (s : State) (h : s.history.Nodup) :
    (historyEffect s).history.Nodup := by
  unfold historyEffect
  split
  · split
    · rename_i hc
      exact List.nodup_cons.mpr ⟨hc.2, h⟩
    · exact h
  · exact h

/-- Running the history effect a second time changes nothing, so one run per
event stands for the re-run React schedules after `setHistory`. -/
theorem historyEffect_idem (s : State) : historyEffect (historyEffect s) = historyEffect s := by
  cases hu : s.imageURL with
  | none => simp [historyEffect, hu]
  | some url =>
    by_cases hc : url ≠ "" ∧ url ∉ s.history
    · simp [historyEffect, hu, hc]
    · simp [historyEffect, hu, hc]

/-- No handler writes `history`: only the effect does. -/
theorem handle_history (w : Sys) (e : Event) : (handle w e).st.history = w.st.history := by
  cases e with
  | uploadImage files => cases files <;> rfl
  | handleOnChange value => rfl
  | handleOnBlur => rfl
  | historyClick index =>
    simp only [handle, historyClick]
    split <;> rfl
  | identify imageRef =>
    simp only [handle, identifyStart]
    split
    · rfl
    · split
      · rfl
      · split <;> rfl
  | classifyResolved results =>
    simp only [handle, identifyResume]
    split <;> rfl
  | classifyRejected error =>
    simp only [handle, identifyResume]
    split <;> rfl
  | imgOnLoad => rfl
  | imgOnError => rfl

/-- No handler writes `model`: only `loadModel` does. -/
theorem handle_model (w : Sys) (e : Event) : (handle w e).st.model = w.st.model := by
  cases e with
  | uploadImage files => cases files <;> rfl
  | handleOnChange value => rfl
  | handleOnBlur => rfl
  | historyClick index =>
    simp only [handle, historyClick]
    split <;> rfl
  | identify imageRef =>
    simp only [handle, identifyStart]
    split
    · rfl
    · split
      · rfl
      · split <;> rfl
  | classifyResolved results =>
    simp only [handle, identifyResume]
    split <;> rfl
  | classifyRejected error =>
    simp only [handle, identifyResume]
    split <;> rfl
  | imgOnLoad => rfl
  | imgOnError => rfl

theorem step_model (w : Sys) (e : Event) : (step w e).st.model = w.st.model := by
  show (historyEffect (handle w e).st).model = w.st.model
  rw [historyEffect_model, handle_model]

theorem step_nodup (w : Sys) (e : Event) (h : w.st.history.Nodup) :
    (step w e).st.history.Nodup := by
  show (historyEffect (handle w e).st).history.Nodup
  apply historyEffect_nodup
  rw [handle_history]
  exact h

theorem run_nodup (es : List Event) (w : Sys) (h : w.st.history.Nodup) :
    (run w es).st.history.Nodup := by
  induction es generalizing w with
  | nil => exact h
  | cons e es ih => exact ih (step w e) (step_nodup w e h)

theorem run_model (es : List Event) (w : Sys) : (run w es).st.model = w.st.model := by
  induction es generalizing w with
  | nil => rfl
  | cons e es ih =>
    show (run (step w e) es).st.model = w.st.model
    rw [ih, step_model]

/-- With no model handle `identify` returns on line 49: only the console line is added. -/
theorem identifyStart_no_model (w : Sys) (imageRef : Option ImageElement)
    (h : w.st.model = none) :
    identifyStart w imageRef = { w with console := "Model is not loaded yet." :: w.console } := by
  simp [identifyStart, h]

/-- With a model and an image that is complete with non-zero width, `identify`
reaches the call on line 58. -/
theorem identifyStart_ready (w : Sys) (m : MobileNet) (img : ImageElement)
    (hm : w.st.model = some m) (hc : img.complete = true) (hw : img.naturalWidth ≠ 0) :
    identifyStart w (some img) =
      { w with textInput := "", classifyCalls := img :: w.classifyCalls,
               inFlight := w.inFlight + 1 } := by
  simp [identifyStart, hm, hc, hw]

/-- With a model and an image that is incomplete or of width 0, `identify`
returns on line 54. -/
theorem identifyStart_not_loaded (w : Sys) (m : MobileNet) (img : ImageElement)
    (hm : w.st.model = some m) (hi : img.complete = false ∨ img.naturalWidth = 0) :
    identifyStart w (some img) =
      { w with console := "Image is not loaded correctly." :: w.console,
               st := { w.st with imageError := true } } := by
  rcases hi with hi | hi <;> simp [identifyStart, hm, hi]

/-- The sibling path: `handleOnChange` does clear the results. -/
theorem handleOnChange_clears_results (w : Sys) (value : String) :
    (step w (.handleOnChange value)).st.results = [] := by
  show (historyEffect _).results = []
  rw [historyEffect_results]
  rfl

/-- Only a resolved `classify` promise writes a non-empty results list. -/
theorem step_results_empty (w : Sys) (e : Event) (h : w.st.results = [])
    (he : ∀ r, e ≠ .classifyResolved r) : (step w e).st.results = [] := by
  show (historyEffect _).results = []
  rw [historyEffect_results]
  cases e with
  | uploadImage files => cases files <;> exact h
  | handleOnChange value => rfl
  | handleOnBlur => exact h
  | historyClick index =>
    simp only [handle, historyClick]
    split <;> exact h
  | identify imageRef =>
    simp only [handle, identifyStart]
    split
    · exact h
    · split
      · exact h
      · split <;> exact h
  | classifyResolved results => exact absurd rfl (he results)
  | classifyRejected error =>
    simp only [handle, identifyResume]
    split <;> exact h
  | imgOnLoad => exact h
  | imgOnError => exact h

/-- After a URL change the results stay empty over every sequence of events
in which no `classify` call resolves. -/
theorem run_results_empty (es : List Event) (w : Sys) (h : w.st.results = [])
    (he : ∀ e ∈ es, ∀ r, e ≠ .classifyResolved r) : (run w es).st.results = [] := by
  induction es generalizing w with
  | nil => exact h
  | cons e es ih =>
    exact ih (step w e) (step_results_empty w e h (he e (List.mem_cons_self e es)))
      (fun e1 h1 => he e1 (List.mem_cons_of_mem e h1))

/-- With no model handle an `identify` event calls nothing. -/
theorem identify_no_model_calls_nothing (w : Sys) (imageRef : Option ImageElement)
    (h : w.st.model = none) :
    (step w (.identify imageRef)).classifyCalls = w.classifyCalls ∧
    (step w (.identify imageRef)).inFlight = w.inFlight := by
  have hs : handle w (.identify imageRef) = identifyStart w imageRef := rfl
  constructor
  · show (handle w (.identify imageRef)).classifyCalls = _
    rw [hs, identifyStart_no_model w imageRef h]
  · show (handle w (.identify imageRef)).inFlight = _
    rw [hs, identifyStart_no_model w imageRef h]

/-- After an event the history effect has nothing left to do. -/
theorem run_settled (es : List Event) (w : Sys) (h : historyEffect w.st = w.st) :
    historyEffect (run w es).st = (run w es).st := by
  induction es generalizing w with
  | nil => exact h
  | cons e es ih => exact ih (step w e) (historyEffect_idem (handle w e).st)

/-- An element that does not pass the test of line 51 is never classified. -/
theorem identify_blocked (w : Sys) (imageRef : Option ImageElement)
    (h : passesGuard imageRef = false) :
    (step w (.identify imageRef)).classifyCalls = w.classifyCalls ∧
    (step w (.identify imageRef)).inFlight = w.inFlight := by
  cases hm : w.st.model with
  | none => exact identify_no_model_calls_nothing w imageRef hm
  | some m =>
    have hs : handle w (.identify imageRef) = identifyStart w imageRef := rfl
    cases imageRef with
    | none =>
      constructor
      · show (handle w (.identify none)).classifyCalls = _
        rw [hs]
        simp [identifyStart, hm]
      · show (handle w (.identify none)).inFlight = _
        rw [hs]
        simp [identifyStart, hm]
    | some img =>
      have hi : img.complete = false ∨ img.naturalWidth = 0 := by
        cases hc : img.complete with
        | false => exact Or.inl rfl
        | true =>
          right
          simpa [passesGuard, hc] using h
      constructor
      · show (handle w (.identify (some img))).classifyCalls = _
        rw [hs, identifyStart_not_loaded w m img hm hi]
      · show (handle w (.identify (some img))).inFlight = _
        rw [hs, identifyStart_not_loaded w m img hm hi]

/-- A render never produces an element that passes the test unless the old one did. -/
theorem reconcile_passes (before after : Option String) (imageRef : Option ImageElement)
    (h : passesGuard (reconcile before imageRef after) = true) : passesGuard imageRef = true := by
  unfold reconcile at h
  split at h
  · cases imageRef with
    | none => simp [passesGuard] at h
    | some img =>
      by_cases hb : before = after
      · simpa [hb] using h
      · simp [hb, passesGuard] at h
  · simp [passesGuard] at h

/-- After `identify`, a set flag means the element did not pass the test or
the flag was set before. -/
theorem identify_imageError (w : Sys) (imageRef : Option ImageElement)
    (h : (handle w (.identify imageRef)).st.imageError = true) :
    passesGuard imageRef = false ∨ w.st.imageError = true := by
  have hs : handle w (.identify imageRef) = identifyStart w imageRef := rfl
  rw [hs] at h
  cases hp : passesGuard imageRef with
  | false => exact Or.inl rfl
  | true =>
    right
    cases imageRef with
    | none => simp [passesGuard] at hp
    | some img =>
      have hc : img.complete = true := by
        cases hcc : img.complete with
        | true => rfl
        | false => simp [passesGuard, hcc] at hp
      have hw : img.naturalWidth ≠ 0 := by
        simpa [passesGuard, hc] using hp
      cases hm : w.st.model with
      | none =>
        rw [identifyStart_no_model w _ hm] at h
        exact h
      | some m =>
        rw [identifyStart_ready w m img hm hc hw] at h
        exact h

/-- Apart from `identify` and the error event, no handler sets the flag. -/
theorem handle_imageError (w : Sys) (e : Event)
    (h : (handle w e).st.imageError = true) (hi : ∀ r, e ≠ .identify r)
    (he : e ≠ .imgOnError) : w.st.imageError = true := by
  cases e with
  | uploadImage files =>
    cases files with
    | nil => exact h
    | cons file files => simp [handle, uploadImage] at h
  | handleOnChange value => simp [handle, handleOnChange] at h
  | handleOnBlur => simp [handle, handleOnBlur] at h
  | historyClick index =>
    simp only [handle, historyClick] at h
    split at h <;> exact h
  | identify imageRef => exact absurd rfl (hi imageRef)
  | classifyResolved results =>
    simp only [handle, identifyResume] at h
    split at h <;> exact h
  | classifyRejected error =>
    simp only [handle, identifyResume] at h
    split at h <;> exact h
  | imgOnLoad => simp [handle, imgOnLoad] at h
  | imgOnError => exact absurd rfl he

theorem render_linked (p : Page) (e : Event) (hp : p.Linked)
    (h : (handle p.sys e).st.imageError = true →
      passesGuard p.imageRef = false ∨ p.sys.st.imageError = true) :
    (p.render e).Linked := by
  intro hflag
  have hflag1 : (handle p.sys e).st.imageError = true := by
    have h0 : (historyEffect (handle p.sys e).st).imageError = true := hflag
    rwa [historyEffect_imageError] at h0
  have hold : passesGuard p.imageRef = false := by
    rcases h hflag1 with h1 | h1
    · exact h1
    · exact hp h1
  cases hn : passesGuard (p.render e).imageRef with
  | false => rfl
  | true =>
    have h2 : passesGuard p.imageRef = true := reconcile_passes _ _ _ hn
    rw [hold] at h2
    cases h2

theorem act_linked (p : Page) (a : Action) (hp : p.Linked) : (p.act a).Linked := by
  cases a with
  | uploadImage files =>
    exact render_linked p _ hp
      (fun h => Or.inr (handle_imageError _ _ h (fun _ => by simp) (by simp)))
  | handleOnChange value =>
    exact render_linked p _ hp
      (fun h => Or.inr (handle_imageError _ _ h (fun _ => by simp) (by simp)))
  | handleOnBlur =>
    exact render_linked p _ hp
      (fun h => Or.inr (handle_imageError _ _ h (fun _ => by simp) (by simp)))
  | historyClick index =>
    exact render_linked p _ hp
      (fun h => Or.inr (handle_imageError _ _ h (fun _ => by simp) (by simp)))
  | identify =>
    show (if shown p.sys.st.imageURL then p.render (.identify p.imageRef) else p).Linked
    split
    · exact render_linked p _ hp (fun h => identify_imageError _ _ h)
    · exact hp
  | classifyResolved results =>
    exact render_linked p _ hp
      (fun h => Or.inr (handle_imageError _ _ h (fun _ => by simp) (by simp)))
  | classifyRejected error =>
    exact render_linked p _ hp
      (fun h => Or.inr (handle_imageError _ _ h (fun _ => by simp) (by simp)))
  | load naturalWidth =>
    cases hr : p.imageRef with
    | none =>
      have : p.act (.load naturalWidth) = p := by simp [Page.act, hr]
      rw [this]
      exact hp
    | some img =>
      intro hflag
      have h0 : (p.act (.load naturalWidth)).sys = step p.sys .imgOnLoad := by
        simp [Page.act, hr]
      rw [h0] at hflag
      have h1 : (historyEffect (handle p.sys .imgOnLoad).st).imageError = true := hflag
      rw [historyEffect_imageError] at h1
      simp [handle, imgOnLoad] at h1
  | error =>
    cases hr : p.imageRef with
    | none =>
      have : p.act .error = p := by simp [Page.act, hr]
      rw [this]
      exact hp
    | some img =>
      intro _
      have h0 : (p.act .error).imageRef = some ⟨true, 0⟩ := by simp [Page.act, hr]
      rw [h0]
      rfl

theorem run_linked (as : List Action) (p : Page) (hp : p.Linked) : (p.run as).Linked := by
  induction as generalizing p with
  | nil => exact hp
  | cons a as ih => exact ih (p.act a) (act_linked p a hp)

theorem mount_linked (backend : Except String Bool) (load : Except String MobileNet) :
    (Page.mount backend load).Linked := by
  intro _
  rfl

/-! ## Scenario data -/

/-- The model handle of the scenarios. -/
def net : MobileNet := ⟨0⟩

/-- A session whose model load succeeded. -/
def ready : Sys := mount (.ok true) (.ok net)

/-- The provider output of the spec's scenario. -/
def catDog : List Prediction := [⟨"cat", 92 / 100⟩, ⟨"dog", 5 / 100⟩]

/-- An image element that has decoded. -/
def decoded : ImageElement := ⟨true, 224⟩

/-- An image element whose decode failed. -/
def broken : ImageElement := ⟨true, 0⟩

/-- A session showing classified image A: URL entered, decoded, identified, resolved. -/
def classifiedA : Sys :=
  run ready [.handleOnChange "A", .imgOnLoad, .identify (some decoded), .classifyResolved catDog]

/-- A session in which B failed to decode after A had been viewed. -/
def failedB : Sys :=
  run ready [.handleOnChange "A", .imgOnLoad, .handleOnChange "B", .imgOnError]

/-! ## The claims -/

/-- C1 (the code at the failing inputs): in a session showing the results of
image A, uploading a file, or clicking the history entry of an earlier image,
changes `imageURL` and leaves the old results on screen, while a URL change
from the same state empties them. -/
theorem C1_upload_and_history_click_keep_stale_results :
    classifiedA.st.results = catDog ∧
    (step classifiedA (.uploadImage [⟨"blob:B"⟩])).st.imageURL = some "blob:B" ∧
    (step classifiedA (.uploadImage [⟨"blob:B"⟩])).st.results = catDog ∧
    (run classifiedA [.handleOnChange "B", .identify (some decoded), .classifyResolved catDog,
        .historyClick 1]).st.imageURL = some "A" ∧
    (run classifiedA [.handleOnChange "B", .identify (some decoded), .classifyResolved catDog,
        .historyClick 1]).st.results = catDog ∧
    (step classifiedA (.handleOnChange "B")).st.results = [] := by
  refine ⟨?_, ?_, ?_, ?_, ?_, ?_⟩ <;> rfl

/-- C2: in every state reached from the initial state, before or after the
mount and whatever the model load did, by any sequence of events, the history
has no duplicates. -/
theorem C2_history_nodup :
    (∀ es : List Event, (run Sys.init es).st.history.Nodup) ∧
    (∀ (backend : Except String Bool) (load : Except String MobileNet) (es : List Event),
      (run (mount backend load) es).st.history.Nodup) := by
  refine ⟨fun es => run_nodup es _ List.nodup_nil, fun backend load es => run_nodup es _ ?_⟩
  show (historyEffect (loadModel Sys.init backend load).st).history.Nodup
  apply historyEffect_nodup
  cases backend with
  | error e => exact List.nodup_nil
  | ok b =>
    cases load with
    | error e => exact List.nodup_nil
    | ok m => exact List.nodup_nil

/-- C3 (counterexample): the empty string entered in the URL input becomes the
current image, is not in the empty history, and is not prepended. -/
theorem C3_empty_url_not_prepended :
    (handle ready (.handleOnChange "")).st.imageURL = some "" ∧
    "" ∉ (handle ready (.handleOnChange "")).st.history ∧
    (historyEffect (handle ready (.handleOnChange "")).st).history ≠
      "" :: (handle ready (.handleOnChange "")).st.history ∧
    (step ready (.handleOnChange "")).st.history = [] := by
  refine ⟨rfl, ?_, ?_, rfl⟩ <;> decide

/-- C3 (amended): when the current image is `v`, the history effect prepends
`v` if `v` is non-empty and not in the history, and leaves the history as it
is if `v` is in it or is the empty string; and from a fresh session, selecting
distinct non-empty A, then B, then A again (by URL or by its history entry)
gives history `[B, A]`. -/
theorem C3_history_effect (s : State) (v : String) :
    (v ≠ "" → v ∉ s.history →
      (historyEffect { s with imageURL := some v }).history = v :: s.history) ∧
    (v ∈ s.history → (historyEffect { s with imageURL := some v }).history = s.history) ∧
    (v = "" → (historyEffect { s with imageURL := some v }).history = s.history) ∧
    (∀ A B : String, A ≠ "" → B ≠ "" → A ≠ B →
      (run ready [.handleOnChange A, .handleOnChange B, .handleOnChange A]).st.history = [B, A] ∧
      (run ready [.handleOnChange A, .handleOnChange B, .historyClick 1]).st.history = [B, A] ∧
      (run ready [.handleOnChange A, .handleOnChange B, .historyClick 1]).st.imageURL
        = some A) := by
  refine ⟨?_, ?_, ?_, ?_⟩
  · intro h1 h2
    simp [historyEffect, h1, h2]
  · intro h
    simp [historyEffect, h]
  · intro h
    simp [historyEffect, h]
  · intro A B hA hB hAB
    have hBA : B ≠ A := fun h => hAB h.symm
    simp [run, step, handle, handleOnChange, historyClick, historyEffect, ready, mount,
      loadModel, Sys.init, State.init, hA, hB, hAB, hBA]

/-- C3 (witness): A = "A", B = "B". -/
theorem C3_history_effect_witness :
    ("A" ≠ "" ∧ "A" ∉ State.init.history ∧
      (historyEffect { State.init with imageURL := some "A" }).history = ["A"]) ∧
    (run ready [.handleOnChange "A", .handleOnChange "B", .historyClick 1]).st.history
      = ["B", "A"] :=
  ⟨⟨by decide, by decide, (C3_history_effect State.init "A").1 (by decide) (by decide)⟩,
   ((C3_history_effect State.init "A").2.2.2 "A" "B" (by decide) (by decide) (by decide)).2.1⟩

/-- C4: with no model handle, `identify` leaves the results list (indeed the
whole component state) as it was and does not call `classify`, whatever the
image element is. -/
theorem C4_identify_without_model (w : Sys) (imageRef : Option ImageElement)
    (h : w.st.model = none) :
    (identifyStart w imageRef).st = w.st ∧
    (step w (.identify imageRef)).st.results = w.st.results ∧
    (step w (.identify imageRef)).classifyCalls = w.classifyCalls ∧
    (step w (.identify imageRef)).inFlight = w.inFlight := by
  have hs : handle w (.identify imageRef) = identifyStart w imageRef := rfl
  refine ⟨?_, ?_, ?_, ?_⟩
  · rw [identifyStart_no_model w imageRef h]
  · show (historyEffect (handle w (.identify imageRef)).st).results = _
    rw [historyEffect_results, hs, identifyStart_no_model w imageRef h]
  · show (handle w (.identify imageRef)).classifyCalls = _
    rw [hs, identifyStart_no_model w imageRef h]
  · show (handle w (.identify imageRef)).inFlight = _
    rw [hs, identifyStart_no_model w imageRef h]

/-- C4 (witness): the session before any model has loaded, with a decoded image. -/
theorem C4_identify_without_model_witness :
    Sys.init.st.model = none ∧
    (step Sys.init (.identify (some decoded))).st.results = [] ∧
    (step Sys.init (.identify (some decoded))).classifyCalls = [] :=
  ⟨rfl, (C4_identify_without_model Sys.init (some decoded) rfl).2.1,
   (C4_identify_without_model Sys.init (some decoded) rfl).2.2.1⟩

/-- C5: in every state the page reaches from its mount, whatever the model
load did and whatever the user and the browser do, if `imageError` is true
then `identify`, clicked on the button or called on the mounted element, does
not call `classify`; and from a state with the flag clear and the image
decoded the same click does call it. -/
theorem C5_identify_blocked_while_imageError (backend : Except String Bool)
    (load : Except String MobileNet) (as : List Action)
    (h : ((Page.mount backend load).run as).sys.st.imageError = true) :
    (((Page.mount backend load).run as).act .identify).sys.classifyCalls
      = ((Page.mount backend load).run as).sys.classifyCalls ∧
    (((Page.mount backend load).run as).act .identify).sys.inFlight
      = ((Page.mount backend load).run as).sys.inFlight ∧
    (step ((Page.mount backend load).run as).sys
        (.identify ((Page.mount backend load).run as).imageRef)).classifyCalls
      = ((Page.mount backend load).run as).sys.classifyCalls ∧
    ((Page.mount (.ok true) (.ok net)).run
        [.handleOnChange "A", .load 224, .identify]).sys.classifyCalls = [decoded] := by
  have hg : passesGuard ((Page.mount backend load).run as).imageRef = false :=
    run_linked as _ (mount_linked backend load) h
  have hb := identify_blocked ((Page.mount backend load).run as).sys _ hg
  refine ⟨?_, ?_, hb.1, rfl⟩
  · show (if shown ((Page.mount backend load).run as).sys.st.imageURL then
        ((Page.mount backend load).run as).render
          (.identify ((Page.mount backend load).run as).imageRef)
      else (Page.mount backend load).run as).sys.classifyCalls = _
    split
    · exact hb.1
    · rfl
  · show (if shown ((Page.mount backend load).run as).sys.st.imageURL then
        ((Page.mount backend load).run as).render
          (.identify ((Page.mount backend load).run as).imageRef)
      else (Page.mount backend load).run as).sys.inFlight = _
    split
    · exact hb.2
    · rfl

/-- C5 (witness): A is viewed and decodes, B fails to decode, and the history
entry of A is clicked: the flag is still true and A is being fetched. -/
theorem C5_identify_blocked_while_imageError_witness :
    ((Page.mount (.ok true) (.ok net)).run
      [.handleOnChange "A", .load 224, .handleOnChange "B", .error,
        .historyClick 1]).sys.st.imageError = true ∧
    (((Page.mount (.ok true) (.ok net)).run
      [.handleOnChange "A", .load 224, .handleOnChange "B", .error,
        .historyClick 1]).act .identify).sys.classifyCalls = [] :=
  ⟨rfl, (C5_identify_blocked_while_imageError (.ok true) (.ok net)
    [.handleOnChange "A", .load 224, .handleOnChange "B", .error, .historyClick 1] rfl).1⟩

/-- C6: with a model handle and an image element that is complete with
non-zero natural width, `identify` calls `classify` once on that element, and
when the call resolves to `r` the results list is `r` itself; the provider
output cat 0.92, dog 0.05 of a fresh session becomes the results list
verbatim, rendered with the badge on "cat" at index 0. -/
theorem C6_identify_success_verbatim (w : Sys) (m : MobileNet) (img : ImageElement)
    (r : List Prediction) (hm : w.st.model = some m) (hc : img.complete = true)
    (hw : img.naturalWidth ≠ 0) :
    (step w (.identify (some img))).classifyCalls = img :: w.classifyCalls ∧
    (step w (.identify (some img))).inFlight = w.inFlight + 1 ∧
    (step w (.identify (some img))).st.results = w.st.results ∧
    (run w [.identify (some img), .classifyResolved r]).st.results = r ∧
    (run w [.identify (some img), .classifyResolved r]).uncaught = w.uncaught ∧
    (run ready [.handleOnChange "A", .imgOnLoad, .identify (some decoded),
        .classifyResolved catDog]).st.results = catDog ∧
    renderResults catDog = [("cat", 92 / 100, true), ("dog", 5 / 100, false)] ∧
    bestGuess catDog = some "cat" := by
  have hs : handle w (.identify (some img)) = identifyStart w (some img) := rfl
  have h1 : (step w (.identify (some img))).inFlight = w.inFlight + 1 := by
    show (handle w (.identify (some img))).inFlight = _
    rw [hs, identifyStart_ready w m img hm hc hw]
  refine ⟨?_, h1, ?_, ?_, ?_, rfl, rfl, rfl⟩
  · show (handle w (.identify (some img))).classifyCalls = _
    rw [hs, identifyStart_ready w m img hm hc hw]
  · show (historyEffect (handle w (.identify (some img))).st).results = _
    rw [historyEffect_results, hs, identifyStart_ready w m img hm hc hw]
  · show (historyEffect (handle (step w (.identify (some img))) (.classifyResolved r)).st).results
      = r
    rw [historyEffect_results]
    show (identifyResume (step w (.identify (some img))) (.ok r)).st.results = r
    simp [identifyResume, h1]
  · show (handle (step w (.identify (some img))) (.classifyResolved r)).uncaught = _
    show (identifyResume (step w (.identify (some img))) (.ok r)).uncaught = _
    have h2 : (step w (.identify (some img))).uncaught = w.uncaught := by
      show (handle w (.identify (some img))).uncaught = _
      rw [hs, identifyStart_ready w m img hm hc hw]
    simp [identifyResume, h1, h2]

/-- C6 (witness): the ready session after image A has decoded. -/
theorem C6_identify_success_verbatim_witness :
    (run ready [.handleOnChange "A", .imgOnLoad]).st.model = some net ∧
    decoded.complete = true ∧ decoded.naturalWidth ≠ 0 ∧
    (run (run ready [.handleOnChange "A", .imgOnLoad])
      [.identify (some decoded), .classifyResolved catDog]).st.results = catDog :=
  ⟨rfl, rfl, by decide,
   (C6_identify_success_verbatim (run ready [.handleOnChange "A", .imgOnLoad]) net decoded
      catDog rfl rfl (by decide)).2.2.2.1⟩

/-- C7: with a model handle and a decoded image, when the `classify` call
rejects, `identify` finishes (the call is no longer pending), nothing escapes
it, the error is logged, and the results list is the one from before the call. -/
theorem C7_identify_failure_keeps_results (w : Sys) (m : MobileNet) (img : ImageElement)
    (error : String) (hm : w.st.model = some m) (hc : img.complete = true)
    (hw : img.naturalWidth ≠ 0) :
    (step w (.identify (some img))).classifyCalls = img :: w.classifyCalls ∧
    (run w [.identify (some img), .classifyRejected error]).st.results = w.st.results ∧
    (run w [.identify (some img), .classifyRejected error]).uncaught = w.uncaught ∧
    (run w [.identify (some img), .classifyRejected error]).inFlight = w.inFlight ∧
    (run w [.identify (some img), .classifyRejected error]).console = error :: w.console := by
  have hs : handle w (.identify (some img)) = identifyStart w (some img) := rfl
  have hst : step w (.identify (some img)) =
      { identifyStart w (some img) with st := historyEffect (identifyStart w (some img)).st } :=
    rfl
  have hrun : run w [.identify (some img), .classifyRejected error] =
      { identifyResume (step w (.identify (some img))) (.error error) with
        st := historyEffect (identifyResume (step w (.identify (some img))) (.error error)).st } :=
    rfl
  rw [hrun, hst, identifyStart_ready w m img hm hc hw]
  refine ⟨rfl, ?_, ?_, ?_, ?_⟩
  · simp [identifyResume, historyEffect_results]
  · simp [identifyResume]
  · simp [identifyResume]
  · simp [identifyResume]

/-- C7 (witness): the session showing the results of A, identified again. -/
theorem C7_identify_failure_keeps_results_witness :
    classifiedA.st.model = some net ∧ decoded.complete = true ∧ decoded.naturalWidth ≠ 0 ∧
    (run classifiedA [.identify (some decoded), .classifyRejected "out of memory"]).st.results
      = catDog ∧
    (run classifiedA [.identify (some decoded), .classifyRejected "out of memory"]).uncaught
      = [] :=
  ⟨rfl, rfl, by decide,
   (C7_identify_failure_keeps_results classifiedA net decoded "out of memory" rfl rfl
      (by decide)).2.1,
   (C7_identify_failure_keeps_results classifiedA net decoded "out of memory" rfl rfl
      (by decide)).2.2.1⟩

/-- C8 (counterexample): B fails to decode, so `imageError` is true; the URL
input then loses focus, which is neither a successful decode nor a new
selection (the image is still B), and the flag is false. -/
theorem C8_blur_clears_imageError :
    (run ready [.handleOnChange "A", .imgOnLoad, .handleOnChange "B"]).st.imageError = false ∧
    failedB.st.imageError = true ∧
    (step failedB .handleOnBlur).st.imageURL = failedB.st.imageURL ∧
    (step failedB .handleOnBlur).st.imageError = false := by
  refine ⟨?_, ?_, ?_, ?_⟩ <;> rfl

/-- C8 (amended): once `imageError` is true it stays true after every event
other than a successful decode (`onLoad`), a selection of an image (URL
change, upload, history click) and the URL input losing focus, which sets it
to false; so `identify`, a settled `classify` call and a further decode
failure keep it. -/
theorem C8_imageError_persists (w : Sys) (e : Event) (h : w.st.imageError = true)
    (hLoad : e ≠ .imgOnLoad) (hBlur : e ≠ .handleOnBlur)
    (hChange : ∀ value, e ≠ .handleOnChange value)
    (hUpload : ∀ files, e ≠ .uploadImage files)
    (hClick : ∀ index, e ≠ .historyClick index) :
    (step w e).st.imageError = true ∧ (step w .handleOnBlur).st.imageError = false := by
  constructor
  · show (historyEffect (handle w e).st).imageError = true
    rw [historyEffect_imageError]
    cases e with
    | uploadImage files => exact absurd rfl (hUpload files)
    | handleOnChange value => exact absurd rfl (hChange value)
    | handleOnBlur => exact absurd rfl hBlur
    | historyClick index => exact absurd rfl (hClick index)
    | identify imageRef =>
      simp only [handle, identifyStart]
      split
      · exact h
      · split
        · exact h
        · split
          · rfl
          · exact h
    | classifyResolved results =>
      simp only [handle, identifyResume]
      split <;> exact h
    | classifyRejected error =>
      simp only [handle, identifyResume]
      split <;> exact h
    | imgOnLoad => exact absurd rfl hLoad
    | imgOnError => rfl
  · show (historyEffect (handle w .handleOnBlur).st).imageError = false
    rw [historyEffect_imageError]
    rfl

/-- C8 (witness): after B failed to decode, `identify` on the broken element. -/
theorem C8_imageError_persists_witness :
    failedB.st.imageError = true ∧
    (step failedB (.identify (some broken))).st.imageError = true :=
  ⟨rfl, (C8_imageError_persists failedB (.identify (some broken)) rfl (by decide) (by decide)
    (fun _ => by simp) (fun _ => by simp) (fun _ => by simp)).1⟩

/-- C9: when `tf.setBackend` or `mobilenet.load` rejects, the mounted component
has `isModelLoading` false and no model handle; after every sequence of events
there is still no model handle, and an `identify` then leaves the component
state as it was and calls nothing. -/
theorem C9_failed_load_is_final (backend : Except String Bool)
    (load : Except String MobileNet)
    (hfail : (∃ error, backend = .error error) ∨ (∃ error, load = .error error)) :
    (mount backend load).st.isModelLoading = false ∧
    (mount backend load).st.model = none ∧
    ∀ (es : List Event) (imageRef : Option ImageElement),
      (run (mount backend load) es).st.model = none ∧
      (step (run (mount backend load) es) (.identify imageRef)).st
        = (run (mount backend load) es).st ∧
      (identifyStart (run (mount backend load) es) imageRef).st
        = (run (mount backend load) es).st ∧
      (step (run (mount backend load) es) (.identify imageRef)).classifyCalls
        = (run (mount backend load) es).classifyCalls ∧
      (step (run (mount backend load) es) (.identify imageRef)).inFlight
        = (run (mount backend load) es).inFlight ∧
      (step (run (mount backend load) es) (.identify imageRef)).uncaught
        = (run (mount backend load) es).uncaught := by
  have hl : (mount backend load).st.isModelLoading = false := by
    show (historyEffect (loadModel Sys.init backend load).st).isModelLoading = false
    rw [historyEffect_isModelLoading]
    cases backend with
    | error e => rfl
    | ok b =>
      cases load with
      | error e => rfl
      | ok m => rfl
  have hm : (mount backend load).st.model = none := by
    show (historyEffect (loadModel Sys.init backend load).st).model = none
    rw [historyEffect_model]
    cases backend with
    | error e => rfl
    | ok b =>
      cases load with
      | error e => rfl
      | ok m =>
        rcases hfail with ⟨e, he⟩ | ⟨e, he⟩
        · cases he
        · cases he
  refine ⟨hl, hm, ?_⟩
  intro es imageRef
  have hr : (run (mount backend load) es).st.model = none := by
    rw [run_model, hm]
  have hs : handle (run (mount backend load) es) (.identify imageRef)
      = identifyStart (run (mount backend load) es) imageRef := rfl
  refine ⟨hr, ?_, ?_, ?_, ?_, ?_⟩
  · show historyEffect (handle (run (mount backend load) es) (.identify imageRef)).st = _
    rw [hs, identifyStart_no_model _ imageRef hr]
    exact run_settled es (mount backend load)
      (historyEffect_idem (loadModel Sys.init backend load).st)
  · rw [identifyStart_no_model _ imageRef hr]
  · exact (identify_no_model_calls_nothing _ imageRef hr).1
  · exact (identify_no_model_calls_nothing _ imageRef hr).2
  · show (handle (run (mount backend load) es) (.identify imageRef)).uncaught = _
    rw [hs, identifyStart_no_model _ imageRef hr]

/-- C9 (witness): `mobilenet.load` rejects, then an image is entered and decodes. -/
theorem C9_failed_load_is_final_witness :
    (mount (.ok true) (.error "fetch failed")).st.isModelLoading = false ∧
    (mount (.ok true) (.error "fetch failed")).st.model = none ∧
    (step (run (mount (.ok true) (.error "fetch failed")) [.handleOnChange "A", .imgOnLoad])
      (.identify (some decoded))).classifyCalls = [] :=
  ⟨(C9_failed_load_is_final (.ok true) (.error "fetch failed") (Or.inr ⟨_, rfl⟩)).1,
   (C9_failed_load_is_final (.ok true) (.error "fetch failed") (Or.inr ⟨_, rfl⟩)).2.1,
   ((C9_failed_load_is_final (.ok true) (.error "fetch failed") (Or.inr ⟨_, rfl⟩)).2.2
      [.handleOnChange "A", .imgOnLoad] (some decoded)).2.2.2.1⟩

/-- C10: `identify` checks the model first. With a model handle and an image
element that is incomplete or of natural width 0, it sets `imageError`, leaves
the results list as it was and does not call `classify`; with no model handle
it leaves `imageError` as it was, whatever the image element is. -/
theorem C10_identify_preconditions_in_order (w : Sys) :
    (∀ (m : MobileNet) (img : ImageElement), w.st.model = some m →
      (img.complete = false ∨ img.naturalWidth = 0) →
      (step w (.identify (some img))).st.imageError = true ∧
      (step w (.identify (some img))).st.results = w.st.results ∧
      (step w (.identify (some img))).classifyCalls = w.classifyCalls ∧
      (step w (.identify (some img))).inFlight = w.inFlight) ∧
    (∀ imageRef : Option ImageElement, w.st.model = none →
      (step w (.identify imageRef)).st.imageError = w.st.imageError) := by
  constructor
  · intro m img hm hi
    have hs : handle w (.identify (some img)) = identifyStart w (some img) := rfl
    refine ⟨?_, ?_, ?_, ?_⟩
    · show (historyEffect (handle w (.identify (some img))).st).imageError = true
      rw [historyEffect_imageError, hs, identifyStart_not_loaded w m img hm hi]
    · show (historyEffect (handle w (.identify (some img))).st).results = _
      rw [historyEffect_results, hs, identifyStart_not_loaded w m img hm hi]
    · show (handle w (.identify (some img))).classifyCalls = _
      rw [hs, identifyStart_not_loaded w m img hm hi]
    · show (handle w (.identify (some img))).inFlight = _
      rw [hs, identifyStart_not_loaded w m img hm hi]
  · intro imageRef hm
    have hs : handle w (.identify imageRef) = identifyStart w imageRef := rfl
    show (historyEffect (handle w (.identify imageRef)).st).imageError = _
    rw [historyEffect_imageError, hs, identifyStart_no_model w imageRef hm]

/-- C10 (witness): a ready session with an image still decoding, and a session
with no model and a broken image. -/
theorem C10_identify_preconditions_in_order_witness :
    (ready.st.model = some net ∧
      (step ready (.identify (some ⟨false, 0⟩))).st.imageError = true ∧
      (step ready (.identify (some ⟨false, 0⟩))).classifyCalls = []) ∧
    (Sys.init.st.model = none ∧
      (step Sys.init (.identify (some broken))).st.imageError = false) :=
  ⟨⟨rfl, ((C10_identify_preconditions_in_order ready).1 net ⟨false, 0⟩ rfl (Or.inl rfl)).1,
    ((C10_identify_preconditions_in_order ready).1 net ⟨false, 0⟩ rfl (Or.inl rfl)).2.2.1⟩,
   ⟨rfl, (C10_identify_preconditions_in_order Sys.init).2 (some broken) rfl⟩⟩

end ImageDetector
